import Mathlib

/-!
Shallow embedding of `src/tox/tox_env/python/virtual_env/package/pep517.py`:
the PEP 517 build-backend protocol client, its completion detector, failure
translation, caches, teardown and the packaging coordinator.

Byte streams are modelled as `List Nat` (byte values); machine strings that
only serve as labels/paths are modelled as `String`.
-/

namespace Tox

/-- Byte values of a string literal (ASCII in all uses here). -/
def strBytes (s : String) : List Nat :=
  s.toList.map Char.toNat

/-- The completion sentinel emitted by the backend process,
`b"Backend: Wrote response "` in the source. -/
def sentinel : List Nat :=
  strBytes "Backend: Wrote response "

/-- `startsWith sep xs` holds when `sep` occurs at the very start of `xs`
(the occurrence test underlying Python's `bytes.rpartition`). -/
def startsWith : List Nat → List Nat → Bool
  | [], _ => true
  | _ :: _, [] => false
  | a :: s, b :: t => a == b && startsWith s t

/-- Greatest index `i < n` at which `sep` occurs in `xs`, if any
(Python's `rpartition` splits at the last occurrence of the separator). -/
def lastOccBelow (sep xs : List Nat) : Nat → Option Nat
  | 0 => none
  | n + 1 => if startsWith sep (xs.drop n) then some n else lastOccBelow sep xs n

/-- `bytes.rpartition(sep)[0]`: everything before the last occurrence of
`sep` in `xs`, and `[]` when `sep` (nonempty in all uses) does not occur —
Python returns `(b"", b"", xs)` in that case. -/
def rpartitionBefore (sep xs : List Nat) : List Nat :=
  match lastOccBelow sep xs (xs.length + 1) with
  | none => []
  | some i => xs.take i

/-- The slice of `ExecuteStatus` that `ToxCmdStatus.done` consults:
the process exit code (None while alive) and the accumulated raw
output bytes. -/
structure ExecuteStatus where
  exit_code : Option Int
  out : List Nat

/-- `ToxCmdStatus.done` from the source: done when the process died
(exit code set), or when a newline byte occurs in
`status.out.rpartition(b"Backend: Wrote response ")[0]`, i.e. strictly
before the last occurrence of the sentinel. -/
def ToxCmdStatus.done (status : ExecuteStatus) : Bool :=
  if status.exit_code.isSome then true
  else decide (10 ∈ rpartitionBefore sentinel status.out)

/-- Completion predicate following the spec's words (for comparison with
the source's `ToxCmdStatus.done`): the output contains the sentinel
`Backend: Wrote response <path>` followed by a newline, i.e. some
occurrence of the sentinel with a newline byte somewhere after it. -/
def specDoneSentinelLine (out : List Nat) : Bool :=
  (List.range (out.length + 1)).any
    (fun i => startsWith sentinel (out.drop i) && decide (10 ∈ out.drop (i + sentinel.length)))

/-!
Backend failures and the protocol client's rewrap (`ToxBackendFailed`,
`Pep517VirtualEnvFrontend._send`, `_unexpected_response`).
`BackendFailed` is the external `pyproject_api` failure carrying
`code`/`exc_type`/`exc_msg`/`out`/`err`; the dynamic subclass test
`isinstance(exception, ToxBackendFailed)` is modelled by the `isTox` flag.
-/

/-- The `pyproject_api.BackendFailed` value as seen at this module's
boundary: error code, exception-type label, exception message, captured
stdout and stderr; `isTox` records whether the value is already the
domain subclass `ToxBackendFailed`. -/
structure BackendFailed where
  code : Int
  exc_type : String
  exc_msg : String
  out : String
  err : String
  isTox : Bool
deriving DecidableEq

/-- `ToxBackendFailed.__init__`: builds the result mapping from the
wrapped failure's `code`/`exc_type`/`exc_msg` and re-uses its
`out`/`err`; the produced value is of the domain type. -/
def ToxBackendFailed.ofBackendFailed (b : BackendFailed) : BackendFailed :=
  { b with isTox := true }

/-- The `except BackendFailed` handler shared by `_send` and
`_unexpected_response`:
`raise exception if isinstance(exception, ToxBackendFailed) else ToxBackendFailed(exception)`. -/
def rewrap (e : BackendFailed) : BackendFailed :=
  if e.isTox then e else ToxBackendFailed.ofBackendFailed e

/-- The synthetic failure raised by `_send` when metadata preparation is
requested while a wheel build is already recorded for the session. -/
def avoidRedundantFailure : BackendFailed :=
  { code := 1
    exc_type := "AvoidRedundant"
    exc_msg := "will need to build wheel either way, avoid prepare"
    out := ""
    err := ""
    isTox := false }

/-- `Pep517VirtualEnvFrontend._send`: `builds` is the coordinator's
recorded set of build kinds, `backend` abstracts what `super()._send`
would do once the request is written to the backend process. Returns the
outcome together with a flag telling whether a request reached the
backend (`super()._send` was invoked). -/
def Frontend.send {α : Type} (builds : List String) (cmd : String)
    (backend : Except BackendFailed α) : Except BackendFailed α × Bool :=
  if cmd = "prepare_metadata_for_build_wheel" ∧ "wheel" ∈ builds then
    (Except.error (rewrap avoidRedundantFailure), false)
  else
    match backend with
    | Except.ok v => (Except.ok v, true)
    | Except.error e => (Except.error (rewrap e), true)

/-- `Pep517VirtualEnvFrontend._unexpected_response`: the parent frontend
raises a `BackendFailed` (`e` here) describing the unexpected response
shape; the override rewraps it exactly like `_send` does. -/
def Frontend.unexpectedResponse (e : BackendFailed) : BackendFailed :=
  rewrap e

/-!
Dependency metadata caching
(`Pep517VirtualEnvPackager.get_package_dependencies` /
`_ensure_meta_present`). A dependency spec (`packaging.requirements.
Requirement`, external) is modelled with the fields the spec's data model
gives it; the requirement strings reported by the prepared distribution
metadata are modelled directly as parsed requirements, since parsing
lives in the external `packaging` library.
-/

/-- Dependency Spec: a parsed requirement. `marker` is the optional
"extra == ..." condition consulted during extras expansion. -/
structure Requirement where
  name : String
  constraints : String
  extras : List String
  marker : Option String
deriving DecidableEq

/-- The two write-once caches of `Pep517VirtualEnvPackager`:
`_distribution_meta` (the prepared metadata's `requires`, which may be
absent, hence `Option (Option _)`) and `_package_dependencies`. -/
structure PackagerState where
  distribution_meta : Option (Option (List Requirement))
  package_dependencies : Option (List Requirement)
deriving DecidableEq

/-- `_ensure_meta_present`: no-op when metadata is already resolved;
otherwise sends `prepare_metadata_for_build_wheel` through
`Frontend.send` (so the redundant-work short-circuit applies) and
records the resulting metadata. The `Nat` counts requests that reached
the backend process. -/
def ensureMetaPresent (builds : List String)
    (backend : Except BackendFailed (Option (List Requirement)))
    (s : PackagerState) : Except BackendFailed PackagerState × Nat :=
  if s.distribution_meta.isSome then (Except.ok s, 0)
  else
    let r := Frontend.send builds "prepare_metadata_for_build_wheel" backend
    let n := if r.2 then 1 else 0
    match r.1 with
    | Except.ok m => (Except.ok { s with distribution_meta := some m }, n)
    | Except.error e => (Except.error e, n)

/-- `get_package_dependencies`: read-through cache over
`_package_dependencies`; on a miss it ensures metadata is present, takes
`requires or []` and stores the parsed list. The `Nat` counts backend
requests issued by the call. -/
def getPackageDependencies (builds : List String)
    (backend : Except BackendFailed (Option (List Requirement)))
    (s : PackagerState) :
    Except BackendFailed (List Requirement × PackagerState) × Nat :=
  match s.package_dependencies with
  | some deps => (Except.ok (deps, s), 0)
  | none =>
    match ensureMetaPresent builds backend s with
    | (Except.ok s1, n) =>
      let deps := (s1.distribution_meta.getD none).getD []
      (Except.ok (deps, { s1 with package_dependencies := some deps }), n)
    | (Except.error e, n) => (Except.error e, n)

/-- Runs `k` successive calls to `get_package_dependencies` against one
coordinator session, threading the state (a call that raises leaves the
caches untouched) and collecting each call's outcome and the total number
of backend requests issued. -/
def runGetDeps (builds : List String)
    (backend : Except BackendFailed (Option (List Requirement))) :
    Nat → PackagerState →
    List (Except BackendFailed (List Requirement)) × PackagerState × Nat
  | 0, s => ([], s, 0)
  | k + 1, s =>
    match getPackageDependencies builds backend s with
    | (Except.ok (d, s1), n) =>
      let rest := runGetDeps builds backend k s1
      (Except.ok d :: rest.1, rest.2.1, n + rest.2.2)
    | (Except.error e, n) =>
      let rest := runGetDeps builds backend k s
      (Except.error e :: rest.1, rest.2.1, n + rest.2.2)

/-!
The shared build-result cache
(`cached(into, key=lambda *args, **kwargs: "wheel" if "wheel_directory"
in kwargs else "sdist")` wrapping both `build_wheel` and `build_sdist`).
Keyword arguments are modelled as an association list of argument name to
an opaque string value; the cache dictionary as an association list from
key to the memoized artifact path.
-/

/-- The cache key function: `"wheel"` when the call carries a
`wheel_directory` keyword argument, `"sdist"` otherwise. -/
def cacheKey (kwargs : List (String × String)) : String :=
  if kwargs.any (fun kv => decide (kv.1 = "wheel_directory")) then "wheel" else "sdist"

/-- `cachetools.cached`: look the key up in the shared dictionary; on a
hit return the stored value without calling the underlying method, on a
miss call it, store and return. The `Nat` counts underlying backend
commands issued. -/
def cachedBuild (impl : List (String × String) → String)
    (cache : List (String × String)) (kwargs : List (String × String)) :
    String × List (String × String) × Nat :=
  let key := cacheKey kwargs
  match cache.lookup key with
  | some v => (v, cache, 0)
  | none => (impl kwargs, (key, impl kwargs) :: cache, 1)

/-- `self.build_wheel = pkg_cache(self.build_wheel)`: the wheel build
entry point is the shared cache wrapper around the underlying
`Frontend.build_wheel` implementation `impl`. -/
def Frontend.build_wheel (impl : List (String × String) → String)
    (cache : List (String × String)) (kwargs : List (String × String)) :
    String × List (String × String) × Nat :=
  cachedBuild impl cache kwargs

/-- `self.build_sdist = pkg_cache(self.build_sdist)`: the sdist build
entry point is the same shared cache wrapper around the underlying
`Frontend.build_sdist` implementation `impl`. -/
def Frontend.build_sdist (impl : List (String × String) → String)
    (cache : List (String × String)) (kwargs : List (String × String)) :
    String × List (String × String) × Nat :=
  cachedBuild impl cache kwargs

/-!
Teardown (`Pep517VirtualEnvPackager._teardown`).
-/

/-- The exceptions that the cooperative shutdown attempt
(`self._frontend._send("_exit")`) can raise at the teardown boundary:
a cancellation-type signal (`SystemExit`) or a backend failure. -/
inductive PyExc where
  | systemExit : PyExc
  | backendFailure (e : BackendFailed) : PyExc
deriving DecidableEq

/-- Outcome of `_teardown`: whether `executor.close()` ran, and which
exception (if any) escaped the teardown. -/
structure TeardownResult where
  closed : Bool
  raised : Option PyExc
deriving DecidableEq

/-- `Pep517VirtualEnvPackager._teardown`, given that a backend executor
exists (the `backend_executor` property creates one on access): attempt
`_send("_exit")` only while the executor is alive, swallow `SystemExit`
raised by the attempt (`except SystemExit: pass`), and always run
`executor.close()` (`finally:`). `sendExitOutcome` abstracts what the
shutdown attempt raises, if anything. -/
def Packager.teardown (alive : Bool) (sendExitOutcome : Option PyExc) : TeardownResult :=
  let attempt := if alive then sendExitOutcome else none
  let afterCatch :=
    match attempt with
    | some PyExc.systemExit => none
    | other => other
  { closed := true, raised := afterCatch }

/-!
The packaging coordinator (`Pep517VirtualEnvPackager.perform_packaging`).
The package wrappers `WheelPackage`/`SdistPackage`/`DevLegacyPackage`
(plain path-plus-dependencies records defined in
`tox.tox_env.python.package`) are modelled as a tagged union.
-/

/-- Package Artifact: tagged union of the produced package kinds. -/
inductive Package where
  | WheelPackage (path : String) (deps : List Requirement)
  | SdistPackage (path : String) (deps : List Requirement)
  | DevLegacyPackage (root : String) (deps : List Requirement)
deriving DecidableEq

/-- Modelled from the spec: the helper `dependencies_with_extras` lives in
`tox.tox_env.python.virtual_env.package.util`, which is not among the
provided sources. Per the spec, extras expansion keeps "a dependency with
extras declared conditionally on extra `x` iff `x` is in the requested
extras, or unconditionally if it has no extra marker". -/
def dependencies_with_extras (deps : List Requirement) (extras : List String) :
    List Requirement :=
  deps.filter (fun d =>
    match d.marker with
    | none => true
    | some x => decide (x ∈ extras))

/-- The designated wheel-build environment as `perform_packaging` sees it:
`self._wheel_build_envs.get(for_env["wheel_build_env"])`. `isSelf` models
the `w_env is not self` identity test; `packageDeps` its
`get_package_dependencies()` result; `packagingResult` its
`perform_packaging(for_env)` result. -/
structure WheelEnvView where
  isSelf : Bool
  isPep517 : Bool
  packageDeps : List Requirement
  packagingResult : List Package
deriving DecidableEq

/-- One coordinator session as `perform_packaging` consumes it:
its own cached dependency resolution (`get_package_dependencies`), the
frontend's static build requires (`self.requires()`), the backend's sdist
build requires (`get_requires_for_build_sdist().requires`), the artifact
paths the backend would produce, the project root (`core["tox_root"]`),
and the wheel-build environment lookup. -/
structure Coordinator where
  selfDeps : List Requirement
  requires : List Requirement
  sdistRequires : List Requirement
  sdistPath : String
  wheelPath : String
  tox_root : String
  wheelEnvLookup : Option WheelEnvView
deriving DecidableEq

/-- Outcome of one `perform_packaging` call: the produced packages (or
the `TypeError` message for an unknown kind), how many `build_wheel`
commands this coordinator itself issued, and whether it acquired its own
`_pkg_lock` in the packaging branch. -/
structure PackagingOutcome where
  result : Except String (List Package)
  selfWheelBuilds : Nat
  usedLock : Bool

/-- `Pep517VirtualEnvPackager.perform_packaging`: resolve base
dependencies (from the distinct wheel-build environment when one is
designated for a wheel build, else from this coordinator), expand extras,
then build the artifact for the requested kind — delegating the whole
wheel build to the designated environment when it is distinct from this
coordinator. -/
def perform_packaging (c : Coordinator) (of_type : String) (extras : List String) :
    PackagingOutcome :=
  let reqs : List Requirement :=
    if of_type = "wheel" then
      match c.wheelEnvLookup with
      | some w =>
        if w.isSelf = false then (if w.isPep517 then w.packageDeps else [])
        else c.selfDeps
      | none => c.selfDeps
    else c.selfDeps
  let deps := dependencies_with_extras reqs extras
  if of_type = "dev-legacy" then
    { result := Except.ok
        [Package.DevLegacyPackage c.tox_root (c.requires ++ c.sdistRequires ++ deps)]
      selfWheelBuilds := 0
      usedLock := false }
  else if of_type = "sdist" then
    { result := Except.ok [Package.SdistPackage c.sdistPath deps]
      selfWheelBuilds := 0
      usedLock := true }
  else if of_type = "wheel" then
    match c.wheelEnvLookup with
    | some w =>
      if w.isSelf = false then
        { result := Except.ok w.packagingResult
          selfWheelBuilds := 0
          usedLock := false }
      else
        { result := Except.ok [Package.WheelPackage c.wheelPath deps]
          selfWheelBuilds := 1
          usedLock := true }
    | none =>
      { result := Except.ok [Package.WheelPackage c.wheelPath deps]
        selfWheelBuilds := 1
        usedLock := true }
  else
    { result := Except.error ("cannot handle package type " ++ of_type)
      selfWheelBuilds := 0
      usedLock := false }

/-!
Concrete sample values used when evaluating the definitions on specific
inputs.
-/

/-- A concrete dependency spec. -/
def sampleRequirement : Requirement :=
  { name := "pkg", constraints := "", extras := [], marker := none }

/-- A coordinator whose designated wheel-build environment is distinct
from it. -/
def delegatingCoordinator : Coordinator :=
  { selfDeps := []
    requires := []
    sdistRequires := []
    sdistPath := "s"
    wheelPath := "mine.whl"
    tox_root := "r"
    wheelEnvLookup := some
      { isSelf := false
        isPep517 := true
        packageDeps := []
        packagingResult := [Package.WheelPackage "other.whl" []] } }

/-- A coordinator with no designated wheel-build environment. -/
def soloCoordinator : Coordinator :=
  { selfDeps := []
    requires := []
    sdistRequires := []
    sdistPath := "s"
    wheelPath := "mine.whl"
    tox_root := "r"
    wheelEnvLookup := none }

/-!
Helper lemmas.
-/

lemma lastOccBelow_none (sep xs : List Nat) (n : Nat)
    (h : lastOccBelow sep xs n = none) :
    ∀ i, i < n → startsWith sep (xs.drop i) = false := by
  induction n with
  | zero => intro i hi; omega
  | succ n ih =>
    unfold lastOccBelow at h
    by_cases hc : startsWith sep (xs.drop n) = true
    · rw [if_pos hc] at h; exact absurd h (by simp)
    · rw [if_neg hc] at h
      intro i hi
      rcases Nat.lt_succ_iff_lt_or_eq.mp hi with hlt | heq
      · exact ih h i hlt
      · subst heq; exact Bool.eq_false_iff.mpr hc

lemma lastOccBelow_some (sep xs : List Nat) (n j : Nat)
    (h : lastOccBelow sep xs n = some j) :
    j < n ∧ startsWith sep (xs.drop j) = true ∧
      ∀ i, j < i → i < n → startsWith sep (xs.drop i) = false := by
  induction n with
  | zero => exact absurd h (by simp [lastOccBelow])
  | succ n ih =>
    unfold lastOccBelow at h
    by_cases hc : startsWith sep (xs.drop n) = true
    · rw [if_pos hc] at h
      have hj : j = n := by simpa using h.symm
      subst hj
      exact ⟨Nat.lt_succ_self _, hc, fun i hji hin => by omega⟩
    · rw [if_neg hc] at h
      obtain ⟨hjn, hpj, hmax⟩ := ih h
      refine ⟨Nat.lt_succ_of_lt hjn, hpj, fun i hji hin => ?_⟩
      rcases Nat.lt_succ_iff_lt_or_eq.mp hin with hlt | heq
      · exact hmax i hji hlt
      · subst heq; exact Bool.eq_false_iff.mpr hc

lemma rewrap_isTox (x : BackendFailed) : (rewrap x).isTox = true := by
  unfold rewrap
  cases hx : x.isTox <;> simp [hx, ToxBackendFailed.ofBackendFailed]

lemma rewrap_preserves (x : BackendFailed) :
    (rewrap x).code = x.code ∧ (rewrap x).exc_type = x.exc_type ∧
      (rewrap x).exc_msg = x.exc_msg ∧ (rewrap x).out = x.out ∧
      (rewrap x).err = x.err := by
  unfold rewrap
  cases hx : x.isTox <;> simp [hx, ToxBackendFailed.ofBackendFailed]

lemma getPackageDependencies_cached (builds : List String)
    (backend : Except BackendFailed (Option (List Requirement)))
    (s : PackagerState) (d : List Requirement)
    (h : s.package_dependencies = some d) :
    getPackageDependencies builds backend s = (Except.ok (d, s), 0) := by
  unfold getPackageDependencies
  rw [h]

lemma runGetDeps_cached (builds : List String)
    (backend : Except BackendFailed (Option (List Requirement)))
    (k : Nat) (s : PackagerState) (d : List Requirement)
    (h : s.package_dependencies = some d) :
    runGetDeps builds backend k s = (List.replicate k (Except.ok d), s, 0) := by
  induction k with
  | zero => simp [runGetDeps]
  | succ k ih =>
    unfold runGetDeps
    rw [getPackageDependencies_cached builds backend s d h]
    simp [ih, List.replicate_succ]

lemma cacheKey_wheel (kwargs : List (String × String))
    (h : "wheel_directory" ∈ kwargs.map Prod.fst) : cacheKey kwargs = "wheel" := by
  unfold cacheKey
  rw [if_pos]
  rw [List.any_eq_true]
  obtain ⟨p, hp, hf⟩ := List.mem_map.mp h
  exact ⟨p, hp, decide_eq_true hf⟩

lemma cacheKey_sdist (kwargs : List (String × String))
    (h : "wheel_directory" ∉ kwargs.map Prod.fst) : cacheKey kwargs = "sdist" := by
  unfold cacheKey
  rw [if_neg]
  intro hc
  rw [List.any_eq_true] at hc
  obtain ⟨p, hp, hd⟩ := hc
  exact h (List.mem_map.mpr ⟨p, hp, of_decide_eq_true hd⟩)

/-!
Claim theorems.
-/

/-- C1 counterexample: the claim says the detector reports done exactly
when the output contains the sentinel followed by a newline. On the code,
output consisting of just the terminated sentinel line
`Backend: Wrote response /x/y\n` is NOT reported done (no newline occurs
before the last sentinel occurrence), while `a\nBackend: Wrote response
/x/y` without the trailing newline IS reported done. -/
theorem C1_counterexample :
    (specDoneSentinelLine (strBytes "Backend: Wrote response /x/y\n") = true ∧
      ToxCmdStatus.done
        { exit_code := none, out := strBytes "Backend: Wrote response /x/y\n" } = false) ∧
    (specDoneSentinelLine (strBytes "a\nBackend: Wrote response /x/y") = false ∧
      ToxCmdStatus.done
        { exit_code := none, out := strBytes "a\nBackend: Wrote response /x/y" } = true) := by
  decide

/-- C1 (amended): for a live process (exit code not set), the detector
reports done exactly when some occurrence of the sentinel
`Backend: Wrote response ` in the accumulated output has a newline byte
strictly before it; the bytes at or after the sentinel occurrence (in
particular its own trailing newline) are not consulted. -/
theorem C1_done_characterization (st : ExecuteStatus) (h : st.exit_code = none) :
    ToxCmdStatus.done st = true ↔
      ∃ i, startsWith sentinel (st.out.drop i) = true ∧ 10 ∈ st.out.take i := by
  unfold ToxCmdStatus.done
  rw [h]
  simp only [Option.isSome_none, Bool.false_eq_true, if_false, decide_eq_true_eq]
  unfold rpartitionBefore
  cases hlo : lastOccBelow sentinel st.out (st.out.length + 1) with
  | none =>
    simp only [List.not_mem_nil, false_iff]
    rintro ⟨i, hp, _⟩
    have hi : i < st.out.length + 1 := by
      by_contra hni
      have hd : st.out.drop i = [] := List.drop_eq_nil_of_le (by omega)
      rw [hd] at hp
      exact absurd hp (by decide)
    have := lastOccBelow_none sentinel st.out _ hlo i hi
    simp [hp] at this
  | some j =>
    obtain ⟨hjn, hpj, hmax⟩ := lastOccBelow_some sentinel st.out _ j hlo
    constructor
    · intro hm
      exact ⟨j, hpj, hm⟩
    · rintro ⟨i, hp, hm⟩
      have hi : i < st.out.length + 1 := by
        by_contra hni
        have hd : st.out.drop i = [] := List.drop_eq_nil_of_le (by omega)
        rw [hd] at hp
        exact absurd hp (by decide)
      have hij : i ≤ j := by
        by_contra hc
        have := hmax i (by omega) hi
        simp [hp] at this
      have heq : st.out.take i = (st.out.take j).take i := by
        rw [List.take_take, Nat.min_eq_left hij]
      rw [heq] at hm
      exact List.take_subset _ _ hm

/-- C1 witness: the characterization applied to a concrete live status. -/
theorem C1_done_characterization_witness :
    ∃ i, startsWith sentinel ((strBytes "a\nBackend: Wrote response /x/y").drop i) = true ∧
      10 ∈ (strBytes "a\nBackend: Wrote response /x/y").take i :=
  (C1_done_characterization
      { exit_code := none, out := strBytes "a\nBackend: Wrote response /x/y" } rfl).mp
    (by decide)

/-- C2: every backend failure raised while sending a command (including
the short-circuit failure and unexpected-response-shape failures) leaves
the client wrapped in the domain type, and rewrapping preserves all of
code, exception-type label, exception message, stdout and stderr, acting
as the identity on already-wrapped failures. -/
theorem C2_rewrap_total_idempotent {α : Type} (builds : List String) (cmd : String)
    (backend : Except BackendFailed α) (e eo : BackendFailed)
    (hs : (Frontend.send builds cmd backend).1 = Except.error e) :
    e.isTox = true ∧
    (Frontend.unexpectedResponse eo).isTox = true ∧
    (eo.isTox = true → rewrap eo = eo) ∧
    ((rewrap eo).code = eo.code ∧ (rewrap eo).exc_type = eo.exc_type ∧
      (rewrap eo).exc_msg = eo.exc_msg ∧ (rewrap eo).out = eo.out ∧
      (rewrap eo).err = eo.err) := by
  refine ⟨?_, rewrap_isTox eo, ?_, rewrap_preserves eo⟩
  · unfold Frontend.send at hs
    by_cases hcond : (cmd = "prepare_metadata_for_build_wheel" ∧ "wheel" ∈ builds)
    · rw [if_pos hcond] at hs
      have he : rewrap avoidRedundantFailure = e := by simpa using hs
      rw [← he]
      exact rewrap_isTox _
    · rw [if_neg hcond] at hs
      cases backend with
      | ok v => simp at hs
      | error e2 =>
        have he : rewrap e2 = e := by simpa using hs
        rw [← he]
        exact rewrap_isTox _
  · intro h
    simp [rewrap, h]

/-- C2 witness: the rewrap contract applied to the concrete
short-circuit failure. -/
theorem C2_rewrap_total_idempotent_witness :
    (rewrap avoidRedundantFailure).isTox = true ∧
    (Frontend.unexpectedResponse avoidRedundantFailure).isTox = true ∧
    (avoidRedundantFailure.isTox = true →
      rewrap avoidRedundantFailure = avoidRedundantFailure) ∧
    ((rewrap avoidRedundantFailure).code = avoidRedundantFailure.code ∧
      (rewrap avoidRedundantFailure).exc_type = avoidRedundantFailure.exc_type ∧
      (rewrap avoidRedundantFailure).exc_msg = avoidRedundantFailure.exc_msg ∧
      (rewrap avoidRedundantFailure).out = avoidRedundantFailure.out ∧
      (rewrap avoidRedundantFailure).err = avoidRedundantFailure.err) :=
  C2_rewrap_total_idempotent ["wheel"] "prepare_metadata_for_build_wheel"
    (Except.ok ()) (rewrap avoidRedundantFailure) avoidRedundantFailure rfl

/-- C3: sending `prepare_metadata_for_build_wheel` while "wheel" is among
the recorded build kinds raises the synthetic redundant-work-avoided
domain failure (code 1, label "AvoidRedundant") without any request being
written to the backend process. -/
theorem C3_avoid_redundant {α : Type} (builds : List String)
    (backend : Except BackendFailed α) (hw : "wheel" ∈ builds) :
    (Frontend.send builds "prepare_metadata_for_build_wheel" backend).2 = false ∧
    ∃ e, (Frontend.send builds "prepare_metadata_for_build_wheel" backend).1 =
        Except.error e ∧
      e.code = 1 ∧ e.exc_type = "AvoidRedundant" ∧ e.isTox = true := by
  have hcond : ("prepare_metadata_for_build_wheel" =
      "prepare_metadata_for_build_wheel" ∧ "wheel" ∈ builds) := ⟨rfl, hw⟩
  unfold Frontend.send
  rw [if_pos hcond]
  exact ⟨rfl, rewrap avoidRedundantFailure, rfl, rfl, rfl, rfl⟩

/-- C3 witness: the short-circuit at a concrete session state. -/
theorem C3_avoid_redundant_witness :
    (Frontend.send ["wheel"] "prepare_metadata_for_build_wheel"
        (Except.ok ())).2 = false ∧
    ∃ e, (Frontend.send ["wheel"] "prepare_metadata_for_build_wheel"
        (Except.ok ())).1 = Except.error e ∧
      e.code = 1 ∧ e.exc_type = "AvoidRedundant" ∧ e.isTox = true :=
  C3_avoid_redundant ["wheel"] (Except.ok ()) (by decide)

/-- C4: in a session whose recorded build kinds do not include "wheel"
(so metadata preparation is not short-circuited) and whose backend
succeeds, any sequence of two or more `get_package_dependencies` calls
issues the metadata-preparation command exactly once — on the first call
— and every call returns the same cached dependency list. -/
theorem C4_dependency_cache_write_once (builds : List String)
    (m : Option (List Requirement)) (j : Nat) (hw : "wheel" ∉ builds) :
    runGetDeps builds (Except.ok m) (j + 2)
        { distribution_meta := none, package_dependencies := none } =
      (List.replicate (j + 2) (Except.ok (m.getD [])),
        { distribution_meta := some m, package_dependencies := some (m.getD []) }, 1) := by
  have hcond : ¬("prepare_metadata_for_build_wheel" =
      "prepare_metadata_for_build_wheel" ∧ "wheel" ∈ builds) := fun hc => hw hc.2
  have h1 : getPackageDependencies builds (Except.ok m)
      { distribution_meta := none, package_dependencies := none } =
      (Except.ok (m.getD [],
        { distribution_meta := some m, package_dependencies := some (m.getD []) }), 1) := by
    unfold getPackageDependencies ensureMetaPresent Frontend.send
    rw [if_neg hcond]
    simp
  show runGetDeps builds (Except.ok m) ((j + 1) + 1) _ = _
  unfold runGetDeps
  rw [h1]
  simp [runGetDeps_cached builds (Except.ok m) (j + 1)
      { distribution_meta := some m, package_dependencies := some (m.getD []) }
      (m.getD []) rfl,
    List.replicate_succ]

/-- C4 witness: two calls on a concrete fresh session. -/
theorem C4_dependency_cache_write_once_witness :
    runGetDeps ["sdist"] (Except.ok (some [sampleRequirement])) 2
        { distribution_meta := none, package_dependencies := none } =
      (List.replicate 2 (Except.ok [sampleRequirement]),
        { distribution_meta := some (some [sampleRequirement]),
          package_dependencies := some [sampleRequirement] }, 1) :=
  C4_dependency_cache_write_once ["sdist"] (some [sampleRequirement]) 0 (by decide)

/-- C5: with the wheel entry of the shared build cache empty, a first
`build_wheel` call (its keyword arguments carry `wheel_directory`) issues
one underlying command, and a second `build_wheel` call with any — in
particular different — config-setting arguments issues none and returns
the first call's artifact path. -/
theorem C5_build_cache_by_kind (impl : List (String × String) → String)
    (cache : List (String × String)) (k1 k2 : List (String × String))
    (hc : cache.lookup "wheel" = none)
    (h1 : "wheel_directory" ∈ k1.map Prod.fst)
    (h2 : "wheel_directory" ∈ k2.map Prod.fst) :
    (Frontend.build_wheel impl cache k1).2.2 = 1 ∧
    (Frontend.build_wheel impl (Frontend.build_wheel impl cache k1).2.1 k2).2.2 = 0 ∧
    (Frontend.build_wheel impl (Frontend.build_wheel impl cache k1).2.1 k2).1 =
      (Frontend.build_wheel impl cache k1).1 := by
  have e1 : Frontend.build_wheel impl cache k1 =
      (impl k1, ("wheel", impl k1) :: cache, 1) := by
    simp [Frontend.build_wheel, cachedBuild, cacheKey_wheel k1 h1, hc]
  have e2 : Frontend.build_wheel impl (("wheel", impl k1) :: cache) k2 =
      (impl k1, ("wheel", impl k1) :: cache, 0) := by
    simp [Frontend.build_wheel, cachedBuild, cacheKey_wheel k2 h2, List.lookup]
  refine ⟨?_, ?_, ?_⟩ <;> simp [e1, e2]

/-- C5 witness: two concrete wheel builds differing in config settings. -/
theorem C5_build_cache_by_kind_witness :
    (Frontend.build_wheel (fun kw => (kw.lookup "config_settings").getD "") []
        [("wheel_directory", "d"), ("config_settings", "a")]).2.2 = 1 ∧
    (Frontend.build_wheel (fun kw => (kw.lookup "config_settings").getD "")
        (Frontend.build_wheel (fun kw => (kw.lookup "config_settings").getD "") []
          [("wheel_directory", "d"), ("config_settings", "a")]).2.1
        [("wheel_directory", "d"), ("config_settings", "b")]).2.2 = 0 ∧
    (Frontend.build_wheel (fun kw => (kw.lookup "config_settings").getD "")
        (Frontend.build_wheel (fun kw => (kw.lookup "config_settings").getD "") []
          [("wheel_directory", "d"), ("config_settings", "a")]).2.1
        [("wheel_directory", "d"), ("config_settings", "b")]).1 =
      (Frontend.build_wheel (fun kw => (kw.lookup "config_settings").getD "") []
        [("wheel_directory", "d"), ("config_settings", "a")]).1 :=
  C5_build_cache_by_kind (fun kw => (kw.lookup "config_settings").getD "") []
    [("wheel_directory", "d"), ("config_settings", "a")]
    [("wheel_directory", "d"), ("config_settings", "b")]
    rfl (by decide) (by decide)

/-- C6: if the executor is alive at teardown and the cooperative shutdown
attempt raises the cancellation-type signal, the signal is swallowed, the
process handle is still closed, and no exception escapes. -/
theorem C6_teardown_resilient (res : Option PyExc)
    (h : res = some PyExc.systemExit) :
    Packager.teardown true res = { closed := true, raised := none } := by
  subst h
  rfl

/-- C6 witness: the teardown at the concrete cancellation signal. -/
theorem C6_teardown_resilient_witness :
    Packager.teardown true (some PyExc.systemExit) =
      { closed := true, raised := none } :=
  C6_teardown_resilient _ rfl

/-- C7: a `dev-legacy` packaging call yields exactly one artifact wrapping
the project root, whose dependency list is the concatenation — in order
and without de-duplication — of the static build requires, then the sdist
build-time requires, then the extras-expanded package dependencies. -/
theorem C7_dev_legacy_deps (c : Coordinator) (extras : List String) :
    perform_packaging c "dev-legacy" extras =
      { result := Except.ok [Package.DevLegacyPackage c.tox_root
          (c.requires ++ c.sdistRequires ++
            dependencies_with_extras c.selfDeps extras)]
        selfWheelBuilds := 0
        usedLock := false } :=
  rfl

/-- C8: a `wheel` packaging call is delegated wholesale to a designated
wheel-build environment distinct from this coordinator — its result is
returned directly and this coordinator issues no `build_wheel` command;
with no designated environment, or the designated environment being this
coordinator, the coordinator takes its build lock and builds the wheel
itself. -/
theorem C8_wheel_delegation (c : Coordinator) (extras : List String) :
    (∀ w, c.wheelEnvLookup = some w → w.isSelf = false →
      perform_packaging c "wheel" extras =
        { result := Except.ok w.packagingResult
          selfWheelBuilds := 0
          usedLock := false }) ∧
    (c.wheelEnvLookup = none →
      perform_packaging c "wheel" extras =
        { result := Except.ok [Package.WheelPackage c.wheelPath
            (dependencies_with_extras c.selfDeps extras)]
          selfWheelBuilds := 1
          usedLock := true }) ∧
    (∀ w, c.wheelEnvLookup = some w → w.isSelf = true →
      perform_packaging c "wheel" extras =
        { result := Except.ok [Package.WheelPackage c.wheelPath
            (dependencies_with_extras c.selfDeps extras)]
          selfWheelBuilds := 1
          usedLock := true }) := by
  refine ⟨?_, ?_, ?_⟩
  · intro w hw hself
    simp [perform_packaging, hw, hself]
  · intro hw
    simp [perform_packaging, hw]
  · intro w hw hself
    simp [perform_packaging, hw, hself]

/-- C8 witness: delegation to a concrete distinct wheel environment, and
a self-build when no designated environment exists. -/
theorem C8_wheel_delegation_witness :
    perform_packaging delegatingCoordinator "wheel" [] =
      { result := Except.ok [Package.WheelPackage "other.whl" []]
        selfWheelBuilds := 0
        usedLock := false } ∧
    perform_packaging soloCoordinator "wheel" [] =
      { result := Except.ok [Package.WheelPackage "mine.whl"
          (dependencies_with_extras [] [])]
        selfWheelBuilds := 1
        usedLock := true } :=
  ⟨(C8_wheel_delegation delegatingCoordinator []).1 _ rfl rfl,
    (C8_wheel_delegation soloCoordinator []).2.1 rfl⟩

/-- C9: whenever the backend process's exit code is set — any value — the
detector reports done, regardless of the accumulated output. -/
theorem C9_exit_code_done (st : ExecuteStatus) (h : st.exit_code.isSome = true) :
    ToxCmdStatus.done st = true := by
  simp [ToxCmdStatus.done, h]

/-- C9 witness: a dead process with empty output is done. -/
theorem C9_exit_code_done_witness :
    ToxCmdStatus.done { exit_code := some 3, out := [] } = true :=
  C9_exit_code_done { exit_code := some 3, out := [] } rfl

/-- C10: the shared build cache's key is computed solely from whether the
call's keyword arguments carry `wheel_directory` ("wheel" if present,
"sdist" otherwise), so any call — through either wrapped method — with
`wheel_directory` hits or fills the wheel entry, and any call without it
hits or fills the sdist entry. -/
theorem C10_cache_key_by_kwargs (wheelImpl sdistImpl : List (String × String) → String)
    (cache : List (String × String)) (kwargs : List (String × String)) (v : String) :
    ("wheel_directory" ∈ kwargs.map Prod.fst → cacheKey kwargs = "wheel") ∧
    ("wheel_directory" ∉ kwargs.map Prod.fst → cacheKey kwargs = "sdist") ∧
    (cache.lookup (cacheKey kwargs) = some v →
      Frontend.build_wheel wheelImpl cache kwargs = (v, cache, 0) ∧
      Frontend.build_sdist sdistImpl cache kwargs = (v, cache, 0)) ∧
    (cache.lookup (cacheKey kwargs) = none →
      Frontend.build_wheel wheelImpl cache kwargs =
        (wheelImpl kwargs, (cacheKey kwargs, wheelImpl kwargs) :: cache, 1) ∧
      Frontend.build_sdist sdistImpl cache kwargs =
        (sdistImpl kwargs, (cacheKey kwargs, sdistImpl kwargs) :: cache, 1)) := by
  refine ⟨cacheKey_wheel kwargs, cacheKey_sdist kwargs, ?_, ?_⟩
  · intro h
    constructor <;> simp [Frontend.build_wheel, Frontend.build_sdist, cachedBuild, h]
  · intro h
    constructor <;> simp [Frontend.build_wheel, Frontend.build_sdist, cachedBuild, h]

/-- C10 witness: a `build_sdist` call carrying `wheel_directory` hits the
wheel entry filled earlier, returning the cached wheel path. -/
theorem C10_cache_key_by_kwargs_witness :
    cacheKey [("wheel_directory", "d")] = "wheel" ∧
    Frontend.build_sdist (fun _ => "s") [("wheel", "cached.whl")]
        [("wheel_directory", "d")] =
      ("cached.whl", [("wheel", "cached.whl")], 0) :=
  ⟨(C10_cache_key_by_kwargs (fun _ => "w") (fun _ => "s") [("wheel", "cached.whl")]
      [("wheel_directory", "d")] "cached.whl").1 (by decide),
    ((C10_cache_key_by_kwargs (fun _ => "w") (fun _ => "s") [("wheel", "cached.whl")]
      [("wheel_directory", "d")] "cached.whl").2.2.1 (by decide)).2⟩

end Tox
